import Mathlib

/-!
Verification of the CARTX backend (src/main.py) against its specification.

The HTTP handlers of src/main.py are shallowly embedded as pure Lean
functions.  The store collaborator (`database.py`: the module-level handle
`db` and the helpers `create_document` / `get_documents`) and the schema
module (`schemas.py`: the pydantic models `Product` and `Order`) are not
part of src/, so they are modelled from the spec, as indicated in the doc
comments of the corresponding definitions.  Python dictionaries are
embedded as ordered association lists, decimal numbers as rationals, and
raised exceptions as `Except` errors.
-/

namespace Cartx

/-- A scalar value as it occurs in documents, queries and payloads:
Python strings, numbers (decimals modelled as rationals), booleans,
store-native identifiers (such as BSON ObjectId, modelled abstractly by a
natural number), and Python `None`. -/
inductive Value where
  | str (s : String)
  | num (q : Rat)
  | bool (b : Bool)
  | oid (n : Nat)
  | none
  deriving DecidableEq, Repr

/-- A document / Python dict: an ordered association list from field names
to values (keys are unique for every dict built by the code). -/
abbrev Document := List (String × Value)

/-- `d.get(key)` without default: first binding of `key`, if any. -/
def getVal : Document → String → Option Value
  | [], _ => Option.none
  | (k, v) :: rest, key => if k = key then some v else getVal rest key

/-- Python `d.get(key)`: returns `None` when the key is absent. -/
def pyGet (d : Document) (key : String) : Value :=
  (getVal d key).getD Value.none

/-- Python `str(...)` on the values above.  A store-native identifier
renders as its canonical string form (modelled as the decimal form of the
abstract identifier); `str(None)` is `"None"`. -/
def pyStr : Value → String
  | Value.str s => s
  | Value.num q => toString q
  | Value.bool b => if b then "True" else "False"
  | Value.oid n => toString n
  | Value.none => "None"

/-- Python dict assignment `d[key] = v`: replaces the binding in place if
the key is present, appends it otherwise. -/
def setItem : Document → String → Value → Document
  | [], key, v => [(key, v)]
  | (k, v') :: rest, key, v =>
    if k = key then (key, v) :: rest else (k, v') :: setItem rest key v

/-- Exact-match filter: every binding of the query appears in the
document, as in the store's find-by-example queries. -/
def matchesQuery (query d : Document) : Bool :=
  query.all (fun kv => getVal d kv.1 == some kv.2)

/-- The state of the document store: the two collections the program uses
("product" and "order") plus a counter supplying fresh store-native
identifiers. -/
structure Store where
  product : List Document
  order : List Document
  nextId : Nat
  deriving DecidableEq, Repr

/-- Modelled from the spec: `database.py` is not under src/.  §4.4
`list(collectionName, filter, limit)`: retrieve the documents of the named
collection matching the exact-match filter (empty filter means no filter),
capped at `limit` when a limit is passed, in store-native (here:
insertion) order. -/
def get_documents (coll : String) (query : Document) (limit : Option Nat)
    (st : Store) : List Document :=
  let docs := if coll = "product" then st.product
    else if coll = "order" then st.order else []
  let matching := docs.filter (fun d => matchesQuery query d)
  match limit with
  | some n => matching.take n
  | Option.none => matching

/-- Modelled from the spec: `database.py` is not under src/.  §4.4
`insert(collectionName, document) -> identifier`: append the validated
document to the named collection with a fresh store-assigned `_id`, and
return that identifier in its plain string form (the form the POST
handlers echo back). -/
def create_document (coll : String) (doc : Document) (st : Store) :
    String × Store :=
  let stored := doc ++ [("_id", Value.oid st.nextId)]
  let st' :=
    if coll = "product" then
      { st with product := st.product ++ [stored], nextId := st.nextId + 1 }
    else if coll = "order" then
      { st with order := st.order ++ [stored], nextId := st.nextId + 1 }
    else
      { st with nextId := st.nextId + 1 }
  (toString st.nextId, st')

/-- A JSON value, for response bodies and the schema report. -/
inductive Json where
  | str (s : String)
  | num (q : Rat)
  | bool (b : Bool)
  | null
  | arr (xs : List Json)
  | obj (fields : List (String × Json))

/-- Embedding of a scalar value into JSON.  Store-native identifiers
serialize via their string form (the list handlers have already replaced
`_id` by a string before serialization). -/
def valJson : Value → Json
  | Value.str s => Json.str s
  | Value.num q => Json.num q
  | Value.bool b => Json.bool b
  | Value.oid n => Json.str (toString n)
  | Value.none => Json.null

/-- Embedding of a document into a JSON object. -/
def docJson (d : Document) : Json :=
  Json.obj (d.map (fun kv => (kv.1, valJson kv.2)))

/-- Outcome of an HTTP request: a JSON body with a status code, or an
`HTTPException`-style failure with a status code and a detail message. -/
inductive HttpResult where
  | ok (status : Nat) (body : Json)
  | err (status : Nat) (detail : String)

/-- The HTTP status code of a result. -/
def statusOf : HttpResult → Nat
  | HttpResult.ok s _ => s
  | HttpResult.err s _ => s

/-- The query built by `list_products` (src/main.py line 28):
`{"category": category} if category else {}` — Python truthiness, so both
`None` and the empty string produce the empty filter. -/
def productQuery (category : Option String) : Document :=
  match category with
  | some c => if c = "" then [] else [("category", Value.str c)]
  | Option.none => []

/-- The per-document rewrite of the list handlers (src/main.py lines 31
and 78): `p["_id"] = str(p.get("_id"))`. -/
def stringifyId (d : Document) : Document :=
  setItem d "_id" (Value.str (pyStr (pyGet d "_id")))

/-- The `{"items": ...}` response body of the list handlers. -/
def itemsBody (ds : List Document) : Json :=
  Json.obj [("items", Json.arr (ds.map docJson))]

/-- GET /api/products (src/main.py lines 25-34).  The store collaborator
is modelled as deterministic, so the `except` branch is not reachable in
the model. -/
def list_products (category : Option String) (st : Store) :
    HttpResult × Store :=
  let products :=
    (get_documents "product" (productQuery category) Option.none st).map
      stringifyId
  (HttpResult.ok 200 (itemsBody products), st)

/-- GET /api/orders (src/main.py lines 73-81), with the `limit` query
parameter made explicit. -/
def list_orders (limit : Nat) (st : Store) : HttpResult × Store :=
  let docs := (get_documents "order" [] (some limit) st).map stringifyId
  (HttpResult.ok 200 (itemsBody docs), st)

/-- GET /api/orders with the `limit` parameter omitted: FastAPI fills in
the declared default `limit: int = 50` (src/main.py line 74). -/
def list_orders_default (st : Store) : HttpResult × Store :=
  list_orders 50 st

/-! ### Validation gateway (pydantic request-body validation)

`schemas.py` is not under src/, so the schema declarations and the
validation step are modelled from the spec (§3 data model, §4.2
`validate`). -/

/-- The declared type of a schema field. -/
inductive FType where
  | str
  | num
  | bool
  deriving DecidableEq, Repr

/-- Modelled from the spec: §4.1 — a declared schema field `{type,
required, default}` (the optional description metadata is carried only by
the introspection model below, which is what reads it). -/
structure FieldDecl where
  name : String
  ftype : FType
  required : Bool
  default : Value
  deriving DecidableEq, Repr

/-- A validation failure `ValidationError{field, reason}` (spec §4.2). -/
structure VErr where
  field : String
  reason : String
  deriving DecidableEq, Repr

/-- Decimal-literal parser used for the spec's textual-number coercion
example (a digit string with at most one point, e.g. "129.99"). -/
def parseDecimal (s : String) : Option Rat :=
  let digitsVal := fun (t : String) =>
    t.foldl (fun a c => a * 10 + (c.toNat - 48)) (0 : Nat)
  match s.split (fun c => c = '.') with
  | [intPart] =>
    if intPart ≠ "" ∧ intPart.all Char.isDigit then
      some ((digitsVal intPart : Nat) : Rat)
    else Option.none
  | [intPart, fracPart] =>
    if intPart ≠ "" ∧ fracPart ≠ "" ∧ intPart.all Char.isDigit ∧
        fracPart.all Char.isDigit then
      some (((digitsVal intPart : Nat) : Rat) +
        ((digitsVal fracPart : Nat) : Rat) / ((10 : Rat) ^ fracPart.length))
    else Option.none
  | _ => Option.none

/-- Modelled from the spec: §4.2 — type coercion of a present payload
value.  Strings and booleans must already have the declared type; a
number is accepted as a number or coerced from a textual decimal (the
spec's "129.99" example). -/
def coerce : FType → Value → Option Value
  | FType.str, Value.str s => some (Value.str s)
  | FType.num, Value.num q => some (Value.num q)
  | FType.num, Value.str s => (parseDecimal s).map Value.num
  | FType.bool, Value.bool b => some (Value.bool b)
  | _, _ => Option.none

/-- Modelled from the spec: §4.2 `validate(schemaName, rawPayload)` —
walk the declared fields in order; a missing required field fails with
reason "missing", a missing optional field takes the declared default, a
present field is coerced or fails with reason "type-mismatch"; unknown
payload fields are dropped. -/
def validateFields : List FieldDecl → Document → Except VErr Document
  | [], _ => Except.ok []
  | f :: fs, raw =>
    match getVal raw f.name with
    | Option.none =>
      if f.required then Except.error ⟨f.name, "missing"⟩
      else do
        let rest ← validateFields fs raw
        Except.ok ((f.name, f.default) :: rest)
    | some v =>
      match coerce f.ftype v with
      | Option.none => Except.error ⟨f.name, "type-mismatch"⟩
      | some v' => do
        let rest ← validateFields fs raw
        Except.ok ((f.name, v') :: rest)

/-- Modelled from the spec: §3 — the CatalogItem (pydantic `Product`)
declaration: title, description, price, category, image required;
in_stock optional with default true. -/
def catalogItemSchema : List FieldDecl :=
  [⟨"title", FType.str, true, Value.none⟩,
   ⟨"description", FType.str, true, Value.none⟩,
   ⟨"price", FType.num, true, Value.none⟩,
   ⟨"category", FType.str, true, Value.none⟩,
   ⟨"image", FType.str, true, Value.none⟩,
   ⟨"in_stock", FType.bool, false, Value.bool true⟩]

/-- The detail string attached to a 422 validation response. -/
def vDetail (e : VErr) : String := e.field ++ ": " ++ e.reason

/-- A POST endpoint as FastAPI runs it: the request body is validated
against the declared schema BEFORE the handler body runs; a validation
failure is answered by FastAPI's request-validation handler with status
422 and never reaches the handler (so the handler's `except` → 500 path
covers only store failures); a valid body is inserted by the handler
(src/main.py lines 36-42 and 65-71) and answered with the body built from
the returned identifier. -/
def api_post (schema : List FieldDecl) (coll : String)
    (mkBody : String → Json) (raw : Document) (st : Store) :
    HttpResult × Store :=
  match validateFields schema raw with
  | Except.error e => (HttpResult.err 422 (vDetail e), st)
  | Except.ok doc =>
    let r := create_document coll doc st
    (HttpResult.ok 200 (mkBody r.1), r.2)

/-- POST /api/products (src/main.py lines 36-42) behind FastAPI's body
validation. -/
def post_products (raw : Document) (st : Store) : HttpResult × Store :=
  api_post catalogItemSchema "product"
    (fun id => Json.obj [("_id", Json.str id)]) raw st

/-- POST /api/orders (src/main.py lines 65-71) behind FastAPI's body
validation.  The Order schema is declared in `schemas.py` (not under
src/) and the spec treats it opaquely, so it is a parameter here. -/
def post_orders (orderSchema : List FieldDecl) (raw : Document)
    (st : Store) : HttpResult × Store :=
  api_post orderSchema "order"
    (fun id => Json.obj [("_id", Json.str id), ("status", Json.str "received")])
    raw st

/-- The handler body of POST /api/products (src/main.py lines 36-42)
with the outcome of the `create_document` call abstracted: `Except.ok id`
when the store returns identifier `id`, `Except.error e` when it raises
with message `str(e) = e`. -/
def create_product (ins : Except String String) : HttpResult :=
  match ins with
  | Except.ok id => HttpResult.ok 200 (Json.obj [("_id", Json.str id)])
  | Except.error e => HttpResult.err 500 e

/-! ### Seed endpoint -/

/-- Sample product 1 of src/main.py line 52, as the validated document the
`Product(...)` constructor yields, in declaration order. -/
def sample1 : Document :=
  [("title", Value.str "Orion Headphones"),
   ("description", Value.str "High-fidelity wireless headphones with noise cancellation."),
   ("price", Value.num (12999 / 100)),
   ("category", Value.str "Audio"),
   ("image", Value.str "https://images.unsplash.com/photo-1518443895470-87f48ac871ec?q=80&w=1600&auto=format&fit=crop"),
   ("in_stock", Value.bool true)]

/-- Sample product 2 of src/main.py line 53. -/
def sample2 : Document :=
  [("title", Value.str "Nova Smartwatch"),
   ("description", Value.str "AMOLED display, 7-day battery, fitness tracking."),
   ("price", Value.num 199),
   ("category", Value.str "Wearables"),
   ("image", Value.str "https://images.unsplash.com/photo-1511707171634-5f897ff02aa9?q=80&w=1600&auto=format&fit=crop"),
   ("in_stock", Value.bool true)]

/-- Sample product 3 of src/main.py line 54. -/
def sample3 : Document :=
  [("title", Value.str "Flux Portable Speaker"),
   ("description", Value.str "Compact speaker with powerful bass and orange accent ring."),
   ("price", Value.num (8950 / 100)),
   ("category", Value.str "Audio"),
   ("image", Value.str "https://images.unsplash.com/photo-1519677100203-a0e668c92439?q=80&w=1600&auto=format&fit=crop"),
   ("in_stock", Value.bool true)]

/-- Sample product 4 of src/main.py line 55. -/
def sample4 : Document :=
  [("title", Value.str "Pulse Mechanical Keyboard"),
   ("description", Value.str "Hot-swappable switches, RGB, USB-C."),
   ("price", Value.num 149),
   ("category", Value.str "Peripherals"),
   ("image", Value.str "https://images.unsplash.com/photo-1517336714731-489689fd1ca8?q=80&w=1600&auto=format&fit=crop"),
   ("in_stock", Value.bool true)]

/-- The `{"status": "already-seeded"}` response. -/
def alreadySeededResp : HttpResult :=
  HttpResult.ok 200 (Json.obj [("status", Json.str "already-seeded")])

/-- POST /api/seed (src/main.py lines 45-62): probe the "product"
collection with limit 1; if anything exists answer "already-seeded"
without writing, otherwise insert the four samples in order and answer
with their identifiers. -/
def seed_products (st : Store) : HttpResult × Store :=
  let existing := get_documents "product" [] (some 1) st
  if existing.isEmpty then
    let r1 := create_document "product" sample1 st
    let r2 := create_document "product" sample2 r1.2
    let r3 := create_document "product" sample3 r2.2
    let r4 := create_document "product" sample4 r3.2
    (HttpResult.ok 200 (Json.obj
      [("status", Json.str "seeded"),
       ("count", Json.num 4),
       ("ids", Json.arr
         [Json.str r1.1, Json.str r2.1, Json.str r3.1, Json.str r4.1])]),
     r4.2)
  else
    (alreadySeededResp, st)

/-! ### GET /schema — introspection endpoint (src/main.py lines 84-105) -/

/-- A pydantic-v2 `FieldInfo` as the entries of `model_cls.model_fields`
are: the string label that `str(field.annotation)` yields (stored
directly, since the label text is opaque to the program), the result of
`field.is_required()`, the declared default, and the declared description
metadata. -/
structure FieldInfo where
  typeLabel : String
  required : Bool
  default : Value
  description : Option String
  deriving DecidableEq, Repr

/-- A pydantic model class as `get_schema` consumes it: `__name__` and
`model_fields` in declaration order. -/
structure ModelCls where
  name : String
  fields : List (String × FieldInfo)
  deriving DecidableEq, Repr

/-- Models the Python attribute lookup `field.field_info` at src/main.py
line 96.  The source targets pydantic v2 (it reads
`model_cls.model_fields` and calls `field.is_required()`, both v2-only
APIs), and in pydantic v2 the entries of `model_fields` are
`pydantic.fields.FieldInfo` objects whose declared slots are the likes of
annotation, default, default_factory, alias, title, description, ... —
there is no attribute named `field_info` (that was the pydantic-v1
`ModelField.field_info`).  The lookup therefore raises `AttributeError`
before the surrounding `getattr(..., "description", None)` can supply its
default, which only guards the lookup of `"description"` on an
already-obtained object. -/
def field_info_attr (_f : FieldInfo) : Except String FieldInfo :=
  Except.error "AttributeError: FieldInfo object has no attribute field_info"

/-- The error message `field_info_attr` raises. -/
def pydanticAttrError : String :=
  "AttributeError: FieldInfo object has no attribute field_info"

/-- The per-field dictionary built in the loop of `model_to_dict`
(src/main.py lines 91-97): type label, required flag, default (null when
required), and the description read through `field.field_info`. -/
def describeField (f : FieldInfo) : Except String Json := do
  let fi ← field_info_attr f
  Except.ok (Json.obj
    [("type", Json.str f.typeLabel),
     ("required", Json.bool f.required),
     ("default", if f.required then Json.null else valJson f.default),
     ("description",
       match fi.description with
       | some d => Json.str d
       | Option.none => Json.null)])

/-- The `fields` dictionary of `model_to_dict`: the per-field reports in
declaration order, propagating the first raised exception. -/
def fieldsReport : List (String × FieldInfo) →
    Except String (List (String × Json))
  | [] => Except.ok []
  | (n, f) :: rest => do
    let d ← describeField f
    let tl ← fieldsReport rest
    Except.ok ((n, d) :: tl)

/-- `model_to_dict` (src/main.py lines 89-102): `{name, collection:
name.lower(), fields}`. -/
def model_to_dict (m : ModelCls) : Except String Json := do
  let fs ← fieldsReport m.fields
  Except.ok (Json.obj
    [("name", Json.str m.name),
     ("collection", Json.str m.name.toLower),
     ("fields", Json.obj fs)])

/-- The list comprehension `[model_to_dict(m) for m in models]`,
propagating the first raised exception. -/
def modelsReport : List ModelCls → Except String (List Json)
  | [] => Except.ok []
  | m :: rest => do
    let j ← model_to_dict m
    let tl ← modelsReport rest
    Except.ok (j :: tl)

/-- GET /schema (src/main.py lines 84-105) as a function of the model
registry (the BaseModel subclasses `inspect.getmembers` finds in
`schemas.py`, in alphabetical order).  The handler has no try/except, so
a raised exception propagates out of the handler (`Except.error`). -/
def get_schema (registry : List ModelCls) : Except String Json := do
  let ms ← modelsReport registry
  Except.ok (Json.obj [("models", Json.arr ms)])

/-- GET /schema with the store state threaded through, to express that
the endpoint neither reads nor writes the store: the source handler
mentions neither `db`, `get_documents` nor `create_document`. -/
def get_schema_endpoint (registry : List ModelCls) (st : Store) :
    Except String Json × Store :=
  (get_schema registry, st)

/-- Modelled from the spec: `schemas.py` is not under src/.  The
`Product` model as §3 declares CatalogItem: five required fields and the
optional `in_stock` defaulting to true; §3 lists no description metadata,
so none is declared. -/
def ProductModel : ModelCls :=
  ⟨"Product",
   [("title", ⟨"str", true, Value.none, Option.none⟩),
    ("description", ⟨"str", true, Value.none, Option.none⟩),
    ("price", ⟨"float", true, Value.none, Option.none⟩),
    ("category", ⟨"str", true, Value.none, Option.none⟩),
    ("image", ⟨"str", true, Value.none, Option.none⟩),
    ("in_stock", ⟨"bool", false, Value.bool true, Option.none⟩)]⟩

/-- Modelled from the spec: the registry `inspect.getmembers` produces
from `schemas.py` — its BaseModel subclasses sorted by name, so `Order`
(opaque per §3, hence its fields are a parameter) before `Product`. -/
def schemaRegistry (orderFields : List (String × FieldInfo)) :
    List ModelCls :=
  [⟨"Order", orderFields⟩, ProductModel]

/-! ### GET /test — diagnostics (src/main.py lines 107-140) -/

/-- The observable behavior of the module-level store handle `db` from
`database.py` (not under src/, modelled from the spec §7: the handle may
be absent entirely — `NotConfiguredError` territory — and listing
collection names may fail): its `name` attribute when `hasattr(db,
'name')`, and the outcome of `db.list_collection_names()`. -/
structure DbInfo where
  name : Option String
  collections : Except String (List String)

/-- The response of GET /test: a dictionary with exactly these six keys
(src/main.py lines 109-116). -/
structure TestResponse where
  backend : Json
  database : Json
  database_url : Json
  database_name : Json
  connection_status : Json
  collections : List String

/-- GET /test (src/main.py lines 107-140) as a function of the store
handle and of whether the DATABASE_URL / DATABASE_NAME environment
variables are set.  The handler only assigns into a local dict — the
`except` arms turn every collaborator failure into a status string — and
the final two assignments overwrite `database_url` / `database_name`
unconditionally from the environment. -/
def test_database (db : Option DbInfo) (urlSet nameSet : Bool) :
    TestResponse :=
  let probe :=
    match db with
    | Option.none =>
      (Json.str "⚠️  Available but not initialized",
       Json.str "Not Connected", ([] : List String))
    | some d =>
      match d.collections with
      | Except.ok cols =>
        (Json.str "✅ Connected & Working", Json.str "Connected",
         cols.take 10)
      | Except.error e =>
        (Json.str ("⚠️  Connected but Error: " ++ e.take 50),
         Json.str "Connected", ([] : List String))
  { backend := Json.str "✅ Running"
    database := probe.1
    database_url := Json.str (if urlSet then "✅ Set" else "❌ Not Set")
    database_name := Json.str (if nameSet then "✅ Set" else "❌ Not Set")
    connection_status := probe.2.1
    collections := probe.2.2 }

/-! ### Concrete inputs used by the witnesses and counterexample -/

/-- The empty store. -/
def emptyStore : Store := ⟨[], [], 0⟩

/-- A CatalogItem payload with every field but `title`: it fails
validation on the missing required `title`. -/
def rawMissingTitle : Document :=
  [("description", Value.str "d"),
   ("price", Value.num (999 / 100)),
   ("category", Value.str "Audio"),
   ("image", Value.str "http://x"),
   ("in_stock", Value.bool true)]

/-- A store whose product collection holds a single document. -/
def seededStore : Store :=
  ⟨[[("title", Value.str "x"), ("_id", Value.oid 0)]], [], 1⟩

/-- A field carrying a declared description, to instantiate the
statements about descriptions. -/
def demoField : FieldInfo := ⟨"str", true, Value.none, some "a note"⟩

/-- A registry with one model carrying a described field. -/
def describedRegistry : List ModelCls :=
  [⟨"Demo", [("note", demoField)]⟩]

/-! ### Helper lemmas -/

/-- The empty query matches every document. -/
theorem matchesQuery_nil (d : Document) : matchesQuery [] d = true := rfl

/-- Filtering by the empty query keeps every document. -/
theorem filter_matchesQuery_nil (l : List Document) :
    l.filter (fun d => matchesQuery [] d) = l := by
  induction l with
  | nil => rfl
  | cons a tl ih =>
    show a :: tl.filter (fun d => matchesQuery [] d) = a :: tl
    rw [ih]

/-- After `d[key] = v`, looking up `key` yields `v`. -/
theorem getVal_setItem_self (d : Document) (key : String) (v : Value) :
    getVal (setItem d key v) key = some v := by
  induction d with
  | nil => simp [setItem, getVal]
  | cons a tl ih =>
    obtain ⟨k', v'⟩ := a
    by_cases h : k' = key
    · simp [setItem, getVal, h]
    · simp [setItem, getVal, h, ih]

/-- After `d[key] = v`, every other key is unchanged. -/
theorem getVal_setItem_ne (d : Document) (key other : String) (v : Value)
    (h : other ≠ key) : getVal (setItem d key v) other = getVal d other := by
  induction d with
  | nil =>
    simp only [setItem, getVal]
    rw [if_neg (fun he => h (he.symm))]
  | cons a tl ih =>
    obtain ⟨k', v'⟩ := a
    by_cases hk : k' = key
    · subst hk
      simp only [setItem, if_pos rfl, getVal]
      rw [if_neg (fun he => h (he.symm)), if_neg (fun he => h (he.symm))]
    · simp only [setItem, if_neg hk, getVal]
      by_cases ho : k' = other
      · rw [if_pos ho, if_pos ho]
      · rw [if_neg ho, if_neg ho, ih]

/-- The limit-1 probe of the seed handler returns the first product, if
any. -/
theorem gd_product_take1 (st : Store) :
    get_documents "product" [] (some 1) st = st.product.take 1 := by
  show (st.product.filter (fun d => matchesQuery [] d)).take 1 =
    st.product.take 1
  rw [filter_matchesQuery_nil]

/-- Inserting into "product" appends the stored document. -/
theorem cd_product (d : Document) (st : Store) :
    (create_document "product" d st).2.product =
      st.product ++ [d ++ [("_id", Value.oid st.nextId)]] := rfl

/-- A nonempty product collection makes the seed handler answer
"already-seeded" and leave the store untouched. -/
theorem seed_already (st : Store) (h : st.product ≠ []) :
    seed_products st = (alreadySeededResp, st) := by
  cases hp : st.product with
  | nil => exact absurd hp h
  | cons a tl =>
    have he : get_documents "product" [] (some 1) st = [a] := by
      rw [gd_product_take1, hp]
      rfl
    simp only [seed_products]
    rw [he]
    rfl

/-- After a seed call the product collection is nonempty. -/
theorem seed_post_nonempty (st : Store) : (seed_products st).2.product ≠ [] := by
  cases hp : st.product with
  | cons a tl =>
    rw [seed_already st (by rw [hp]; exact List.cons_ne_nil a tl)]
    show st.product ≠ []
    rw [hp]
    exact List.cons_ne_nil a tl
  | nil =>
    have he : get_documents "product" [] (some 1) st = [] := by
      rw [gd_product_take1, hp]
      rfl
    simp only [seed_products]
    rw [he]
    simp only [List.isEmpty_nil, if_true, cd_product]
    intro hc
    have hl := congrArg List.length hc
    simp [List.length_append] at hl

/-- Every per-field report raises the `field.field_info` lookup error. -/
theorem describeField_err (f : FieldInfo) :
    describeField f = Except.error pydanticAttrError := rfl

/-- `model_to_dict` raises on every model with at least one field. -/
theorem model_to_dict_ne_nil_err (m : ModelCls) (h : m.fields ≠ []) :
    model_to_dict m = Except.error pydanticAttrError := by
  obtain ⟨nm, fs⟩ := m
  cases fs with
  | nil => exact absurd rfl h
  | cons a tl =>
    obtain ⟨n, f⟩ := a
    rfl

/-- `model_to_dict` on a field-less model emits the name / lowercased
collection / empty fields dictionary. -/
theorem model_to_dict_nil (nm : String) :
    model_to_dict ⟨nm, []⟩ = Except.ok (Json.obj
      [("name", Json.str nm), ("collection", Json.str nm.toLower),
       ("fields", Json.obj [])]) := rfl

/-- `model_to_dict` either raises the `field_info` lookup error or
succeeds: no other exception exists on this path. -/
theorem model_to_dict_cases (m : ModelCls) :
    model_to_dict m = Except.error pydanticAttrError ∨
      ∃ j, model_to_dict m = Except.ok j := by
  obtain ⟨nm, fs⟩ := m
  cases fs with
  | nil => exact Or.inr ⟨_, model_to_dict_nil nm⟩
  | cons a tl => exact Or.inl (model_to_dict_ne_nil_err _ (List.cons_ne_nil a tl))

/-- If any registered model has at least one field, the whole report
raises the `field_info` lookup error. -/
theorem modelsReport_err_of_mem (reg : List ModelCls) (m : ModelCls)
    (hm : m ∈ reg) (hne : m.fields ≠ []) :
    modelsReport reg = Except.error pydanticAttrError := by
  induction reg with
  | nil => cases hm
  | cons r rest ih =>
    cases hcase : model_to_dict r with
    | error e =>
      have he : e = pydanticAttrError := by
        rcases model_to_dict_cases r with h1 | ⟨j, h1⟩
        · rw [hcase] at h1
          injection h1
        · rw [hcase] at h1
          injection h1
      subst he
      simp only [modelsReport]
      rw [hcase]
      rfl
    | ok j =>
      rcases List.mem_cons.mp hm with hEq | hMem
      · subst hEq
        rw [model_to_dict_ne_nil_err m hne] at hcase
        injection hcase
      · simp only [modelsReport]
        rw [hcase, ih hMem]
        rfl

/-- If any registered model has at least one field, GET /schema raises
the `field_info` lookup error. -/
theorem get_schema_err_of_mem (reg : List ModelCls) (m : ModelCls)
    (hm : m ∈ reg) (hne : m.fields ≠ []) :
    get_schema reg = Except.error pydanticAttrError := by
  simp only [get_schema]
  rw [modelsReport_err_of_mem reg m hm hne]
  rfl

/-! ### Claim theorems -/

/-- Claim C1: the claim says GET /schema reproduces every declared field
description.  It does not: whenever the registry holds a model with a
described field (indeed with any field at all), the handler raises
`AttributeError` on the `field.field_info` lookup of src/main.py line 96
— a pydantic-v1 leftover, while the surrounding code targets pydantic v2
— so the report, and in particular the description string, is never
produced; the request fails instead of answering. -/
theorem c1_description_never_reported (reg : List ModelCls) (m : ModelCls)
    (nm : String) (fi : FieldInfo) (d : String) (hm : m ∈ reg)
    (hf : (nm, fi) ∈ m.fields) (_hd : fi.description = some d) :
    get_schema reg = Except.error pydanticAttrError := by
  have hne : m.fields ≠ [] := by
    intro h
    rw [h] at hf
    cases hf
  exact get_schema_err_of_mem reg m hm hne

/-- Witness for C1 at a concrete registry holding one model with one
described field. -/
theorem c1_description_never_reported_witness :
    (⟨"Demo", [("note", demoField)]⟩ : ModelCls) ∈ describedRegistry ∧
    ("note", demoField) ∈ (⟨"Demo", [("note", demoField)]⟩ : ModelCls).fields ∧
    demoField.description = some "a note" ∧
    get_schema describedRegistry = Except.error pydanticAttrError :=
  ⟨by decide, by decide, rfl,
   c1_description_never_reported describedRegistry
     ⟨"Demo", [("note", demoField)]⟩ "note" demoField "a note"
     (by decide) (by decide) rfl⟩

/-- Claim C2: the claim says every model emitted by GET /schema carries
`collection = lowercase(name)` and per-field type/required/default
entries.  The code never emits any model: on the registry of `schemas.py`
(Order and Product, whatever the opaque Order fields are) the handler
raises on the `field.field_info` lookup, and every per-field report
raises before any entry is built.  Only the surviving fragment — the
dictionary built for a hypothetical field-less model — exhibits the
claimed name / lowercased-collection shape. -/
theorem c2_collection_lowercase_fragment :
    (∀ orderFields : List (String × FieldInfo),
      ∃ e, get_schema (schemaRegistry orderFields) = Except.error e) ∧
    (∀ f : FieldInfo, describeField f = Except.error pydanticAttrError) ∧
    (∀ m : ModelCls, m.fields = [] →
      model_to_dict m = Except.ok (Json.obj
        [("name", Json.str m.name), ("collection", Json.str m.name.toLower),
         ("fields", Json.obj [])])) := by
  refine ⟨?_, ?_, ?_⟩
  · intro ofs
    refine ⟨pydanticAttrError, ?_⟩
    have hmem : ProductModel ∈ schemaRegistry ofs :=
      List.mem_cons_of_mem _ (List.mem_cons_self _ _)
    have hne : ProductModel.fields ≠ [] := by decide
    exact get_schema_err_of_mem _ _ hmem hne
  · intro f
    rfl
  · intro m h
    obtain ⟨nm, fs⟩ := m
    simp only at h
    subst h
    rfl

/-- Witness for C2: the registry with a field-less Order still raises,
and a field-less model would report its lowercased name as collection. -/
theorem c2_collection_lowercase_fragment_witness :
    (∃ e, get_schema (schemaRegistry []) = Except.error e) ∧
    model_to_dict ⟨"Empty", []⟩ = Except.ok (Json.obj
      [("name", Json.str "Empty"), ("collection", Json.str ("Empty".toLower)),
       ("fields", Json.obj [])]) :=
  ⟨c2_collection_lowercase_fragment.1 [],
   c2_collection_lowercase_fragment.2.2 ⟨"Empty", []⟩ rfl⟩

/-- Claim C3: GET /schema is pure and deterministic — its outcome does
not depend on the store state, and the store is left untouched (the
handler performs no insert or list call). -/
theorem c3_schema_pure_deterministic :
    ∀ (registry : List ModelCls) (st1 st2 : Store),
      (get_schema_endpoint registry st1).1 = (get_schema_endpoint registry st2).1 ∧
      (get_schema_endpoint registry st1).2 = st1 :=
  fun _ _ _ => ⟨rfl, rfl⟩

/-- Claim C4 counterexample: a CatalogItem payload missing the required
`title` is rejected by FastAPI's request-body validation with status 422,
not with the 500 the claim states, and nothing is inserted. -/
theorem c4_counterexample :
    statusOf (post_products rawMissingTitle emptyStore).1 = 422 ∧
    (422 : Nat) ≠ 500 ∧
    (post_products rawMissingTitle emptyStore).2 = emptyStore :=
  ⟨rfl, by decide, rfl⟩

/-- Claim C4 (amended): a payload failing schema validation makes the
POST endpoint (products or orders) fail with HTTP status 422 — FastAPI
validates the body before the handler runs, so the handler's blanket
500 covers only store errors — and no document is inserted: the store is
unchanged. -/
theorem c4_validation_rejected_422 :
    (∀ (raw : Document) (st : Store) (e : VErr),
      validateFields catalogItemSchema raw = Except.error e →
      post_products raw st = (HttpResult.err 422 (vDetail e), st)) ∧
    (∀ (orderSchema : List FieldDecl) (raw : Document) (st : Store) (e : VErr),
      validateFields orderSchema raw = Except.error e →
      post_orders orderSchema raw st = (HttpResult.err 422 (vDetail e), st)) := by
  constructor
  · intro raw st e h
    simp only [post_products, api_post]
    rw [h]
  · intro os raw st e h
    simp only [post_orders, api_post]
    rw [h]

/-- Witness for C4 (amended) at the concrete payload missing `title`. -/
theorem c4_validation_rejected_422_witness :
    validateFields catalogItemSchema rawMissingTitle =
      Except.error ⟨"title", "missing"⟩ ∧
    post_products rawMissingTitle emptyStore =
      (HttpResult.err 422 "title: missing", emptyStore) :=
  ⟨rfl,
   c4_validation_rejected_422.1 rawMissingTitle emptyStore
     ⟨"title", "missing"⟩ rfl⟩

/-- Claim C5: the seed operation is idempotent — with any document
already in the product collection it answers "already-seeded" and leaves
the store (hence the collection's contents and size) unchanged, and a
second seed call always answers "already-seeded". -/
theorem c5_seed_idempotent :
    (∀ st : Store, st.product ≠ [] →
      seed_products st = (alreadySeededResp, st)) ∧
    (∀ st : Store,
      (seed_products ((seed_products st).2)).1 = alreadySeededResp) := by
  constructor
  · exact seed_already
  · intro st
    rw [seed_already _ (seed_post_nonempty st)]

/-- Witness for C5 at a store with one product, and the double-seed run
from the empty store. -/
theorem c5_seed_idempotent_witness :
    seededStore.product ≠ [] ∧
    seed_products seededStore = (alreadySeededResp, seededStore) ∧
    (seed_products ((seed_products emptyStore).2)).1 = alreadySeededResp :=
  ⟨by decide,
   c5_seed_idempotent.1 seededStore (by decide),
   c5_seed_idempotent.2 emptyStore⟩

/-- Claim C6: POST /api/products either fully succeeds, answering
`{_id: s}` with exactly the identifier the store returned, or fully
fails with a 500 whose detail is the store error's message — for every
possible outcome of the single (unretried) `create_document` call. -/
theorem c6_create_product_all_or_nothing :
    ∀ ins : Except String String,
      (∃ s, ins = Except.ok s ∧
        create_product ins = HttpResult.ok 200 (Json.obj [("_id", Json.str s)])) ∨
      (∃ e, ins = Except.error e ∧ create_product ins = HttpResult.err 500 e) := by
  intro ins
  cases ins with
  | error e => exact Or.inr ⟨e, rfl, rfl⟩
  | ok s => exact Or.inl ⟨s, rfl, rfl⟩

/-- Claim C7: both list endpoints return exactly the store's documents
with `_id` rewritten to its string form (`p["_id"] = str(p.get("_id"))`)
and every other field untouched. -/
theorem c7_list_stringifies_id :
    ∀ (st : Store) (cat : Option String) (n : Nat),
      (list_products cat st).1 = HttpResult.ok 200 (itemsBody
        ((get_documents "product" (productQuery cat) Option.none st).map
          stringifyId)) ∧
      (list_orders n st).1 = HttpResult.ok 200 (itemsBody
        ((get_documents "order" [] (some n) st).map stringifyId)) ∧
      (∀ d : Document, getVal (stringifyId d) "_id" =
        some (Value.str (pyStr (pyGet d "_id")))) ∧
      (∀ (d : Document) (k : String), k ≠ "_id" →
        getVal (stringifyId d) k = getVal d k) := by
  intro st cat n
  refine ⟨rfl, rfl, ?_, ?_⟩
  · intro d
    exact getVal_setItem_self d "_id" _
  · intro d k hk
    exact getVal_setItem_ne d "_id" k _ hk

/-- Witness for C7 at a concrete two-field document. -/
theorem c7_list_stringifies_id_witness :
    ("title" : String) ≠ "_id" ∧
    getVal (stringifyId [("_id", Value.oid 7), ("title", Value.str "x")])
        "title" =
      getVal [("_id", Value.oid 7), ("title", Value.str "x")] "title" :=
  ⟨by decide,
   (c7_list_stringifies_id emptyStore Option.none 0).2.2.2
     [("_id", Value.oid 7), ("title", Value.str "x")] "title" (by decide)⟩

/-- Claim C8: GET /api/orders without a `limit` parameter runs with the
declared default 50, so at most 50 items come back; a caller-supplied
limit is forwarded unchanged to the store call and caps the item count. -/
theorem c8_orders_limit :
    (∀ st : Store, list_orders_default st = list_orders 50 st) ∧
    (∀ (st : Store) (n : Nat),
      (list_orders n st).1 = HttpResult.ok 200 (itemsBody
        ((get_documents "order" [] (some n) st).map stringifyId)) ∧
      ((get_documents "order" [] (some n) st).map stringifyId).length ≤ n) := by
  constructor
  · intro st
    rfl
  · intro st n
    refine ⟨rfl, ?_⟩
    have h : get_documents "order" [] (some n) st =
        (st.order.filter (fun d => matchesQuery [] d)).take n := rfl
    rw [h, List.length_map, List.length_take]
    omega

/-- Claim C9: GET /test never raises — for every store-handle state and
environment it returns the six-key diagnostic object, every status a
plain string, a failed collection listing embedded as a truncated
message string, and at most ten collection names. -/
theorem c9_test_never_fails :
    ∀ (db : Option DbInfo) (urlSet nameSet : Bool),
      (test_database db urlSet nameSet).backend = Json.str "✅ Running" ∧
      (∃ s, (test_database db urlSet nameSet).database = Json.str s) ∧
      (∃ s, (test_database db urlSet nameSet).database_url = Json.str s) ∧
      (∃ s, (test_database db urlSet nameSet).database_name = Json.str s) ∧
      (∃ s, (test_database db urlSet nameSet).connection_status = Json.str s) ∧
      (test_database db urlSet nameSet).collections.length ≤ 10 ∧
      (db = Option.none →
        (test_database db urlSet nameSet).database =
          Json.str "⚠️  Available but not initialized") ∧
      (∀ (nm : Option String) (e : String),
        db = some ⟨nm, Except.error e⟩ →
        (test_database db urlSet nameSet).database =
          Json.str ("⚠️  Connected but Error: " ++ e.take 50)) := by
  intro db u n
  match db with
  | Option.none =>
    refine ⟨rfl, ⟨_, rfl⟩, ⟨_, rfl⟩, ⟨_, rfl⟩, ⟨_, rfl⟩, ?_, fun _ => rfl, ?_⟩
    · show (0 : Nat) ≤ 10
      omega
    · intro nm e h
      cases h
  | some ⟨nm0, Except.ok cols⟩ =>
    refine ⟨rfl, ⟨_, rfl⟩, ⟨_, rfl⟩, ⟨_, rfl⟩, ⟨_, rfl⟩, ?_, ?_, ?_⟩
    · show (cols.take 10).length ≤ 10
      rw [List.length_take]
      omega
    · intro h
      cases h
    · intro nm e h
      injection h with h1
      injection h1 with h2 h3
      cases h3
  | some ⟨nm0, Except.error e0⟩ =>
    refine ⟨rfl, ⟨_, rfl⟩, ⟨_, rfl⟩, ⟨_, rfl⟩, ⟨_, rfl⟩, ?_, ?_, ?_⟩
    · show (0 : Nat) ≤ 10
      omega
    · intro h
      cases h
    · intro nm e h
      injection h with h1
      injection h1 with h2 h3
      injection h3 with h4
      rw [h4]
      rfl

/-- Witness for C9 at a handle whose collection listing raises. -/
theorem c9_test_never_fails_witness :
    (some (⟨some "shop", Except.error "boom"⟩ : DbInfo) =
      some (⟨some "shop", Except.error "boom"⟩ : DbInfo)) ∧
    (test_database (some ⟨some "shop", Except.error "boom"⟩) true false).database =
      Json.str ("⚠️  Connected but Error: " ++ "boom".take 50) :=
  ⟨rfl,
   (c9_test_never_fails (some ⟨some "shop", Except.error "boom"⟩)
       true false).2.2.2.2.2.2.2 (some "shop") "boom" rfl⟩

/-- Claim C10: an empty-string `category` is falsy in the handler's
conditional, so GET /api/products behaves exactly as with the parameter
omitted: the filter is empty and every product comes back. -/
theorem c10_empty_category_unfiltered :
    ∀ st : Store,
      list_products (some "") st = list_products Option.none st ∧
      productQuery (some "") = ([] : Document) ∧
      (list_products (some "") st).1 =
        HttpResult.ok 200 (itemsBody (st.product.map stringifyId)) := by
  intro st
  refine ⟨rfl, rfl, ?_⟩
  have h : get_documents "product" (productQuery (some "")) Option.none st =
      st.product := by
    show st.product.filter (fun d => matchesQuery [] d) = st.product
    exact filter_matchesQuery_nil st.product
  show HttpResult.ok 200 (itemsBody
    ((get_documents "product" (productQuery (some "")) Option.none st).map
      stringifyId)) =
    HttpResult.ok 200 (itemsBody (st.product.map stringifyId))
  rw [h]

end Cartx
